import Mathlib

/-!
Verification of the lead-scoring backend (src/app.py): the rule-based
scorer, the AI intent classifier with its fallbacks, the score combiner,
and the session-level scoring pass.

Leads come from a CSV parsed into per-row records; each field is either
absent or a string (`Option String`).  Pythonic truthiness of such a
value is: present and non-empty.  The offer is the pydantic `Offer`
model with its three fields.  The external completion service is a
parameter: it either raises or returns a response text; the standard
JSON parser (`json.loads`) is likewise a parameter mapping a text to
`none` (parse error) or a parsed Python value.
-/

/-- One uploaded lead row.  The schema is open in the source; the scorer
only consults these six columns, so the embedding carries exactly them. -/
structure Lead where
  name : Option String
  role : Option String
  company : Option String
  industry : Option String
  location : Option String
  linkedin_bio : Option String
deriving Repr, DecidableEq

/-- The pydantic `Offer` model of app.py. -/
structure Offer where
  name : String
  value_props : List String
  ideal_use_cases : List String
deriving Repr, DecidableEq

/-- Python truthiness of `lead.get(col)`: present and non-empty. -/
def truthy (v : Option String) : Bool :=
  match v with
  | none => false
  | some s => s ≠ ""

/-- `needle` occurs contiguously in `hay` (as character lists). -/
def containsAux (needle : List Char) : List Char → Bool
  | [] => needle.isEmpty
  | c :: rest => needle.isPrefixOf (c :: rest) || containsAux needle rest

/-- Python `needle in hay` on strings: substring test. -/
def strContains (hay needle : String) : Bool :=
  containsAux needle.toList hay.toList

/-- Python `s.lower()` (ASCII case folding, which covers the keyword
alphabet the scorer compares against). -/
def pyLower (s : String) : String :=
  ⟨s.toList.map Char.toLower⟩

/-- Python `s.strip()`: drop whitespace from both ends. -/
def pyStrip (s : String) : String :=
  ⟨((s.toList.dropWhile Char.isWhitespace).reverse.dropWhile Char.isWhitespace).reverse⟩

/-- Python `s.startswith(pre)`. -/
def pyStartsWith (s pre : String) : Bool :=
  pre.toList.isPrefixOf s.toList

/-- Left-to-right, non-overlapping replacement of `pat` by `rep`,
with a structural fuel (one unit per character consumed; the patterns
used in the source are non-empty, so `s.length` fuel is enough). -/
def replaceFuel (pat rep : List Char) : Nat → List Char → List Char
  | _, [] => []
  | 0, s => s
  | fuel + 1, c :: rest =>
    if pat.isPrefixOf (c :: rest) && !pat.isEmpty then
      rep ++ replaceFuel pat rep fuel ((c :: rest).drop pat.length)
    else c :: replaceFuel pat rep fuel rest

/-- Python `s.replace(pat, rep)`: replace every occurrence. -/
def pyReplace (s pat rep : String) : String :=
  ⟨replaceFuel pat.toList rep.toList s.toList.length s.toList⟩

/-- One step of Python `s.split()`: `cur` is the word being read,
reversed. -/
def pySplitAux (cur : List Char) : List Char → List (List Char)
  | [] => if cur.isEmpty then [] else [cur.reverse]
  | c :: rest =>
    if c.isWhitespace then
      if cur.isEmpty then pySplitAux [] rest
      else cur.reverse :: pySplitAux [] rest
    else pySplitAux (c :: cur) rest

/-- Python `s.split()` with no argument: split on whitespace runs,
dropping empty pieces. -/
def pySplit (s : String) : List String :=
  (pySplitAux [] s.toList).map fun w => ⟨w⟩

/-- Tier-A seniority keywords of `rule_based_score` (app.py line 90). -/
def tierA : List String := ["head", "director", "vp", "founder", "ceo"]

/-- Tier-B seniority keywords of `rule_based_score` (app.py line 92). -/
def tierB : List String := ["manager", "lead", "specialist"]

/-- `rule_based_score(lead, offer)` of app.py lines 87-106, translated
statement by statement.  `str(lead.get("role", "")).lower()` becomes
`pyLower (lead.role.getD "")`; the guard `offer and offer.get("ideal_use_cases")`
reduces to the use-case list being non-empty, since a stored offer dict
always has the three pydantic keys. -/
def rule_based_score (lead : Lead) (offer : Offer) : Int :=
  let score : Int := 0
  let role := pyLower (lead.role.getD "")
  let score :=
    if tierA.any (fun k => strContains role k) then score + 20
    else if tierB.any (fun k => strContains role k) then score + 10
    else score
  let industry := pyLower (lead.industry.getD "")
  let score :=
    match offer.ideal_use_cases with
    | [] => score
    | icp0 :: _ =>
      let icp := pyLower icp0
      if strContains industry icp then score + 20
      else if (pySplit icp).any (fun w => strContains industry w) then score + 10
      else score
  let score :=
    if [lead.name, lead.role, lead.company, lead.industry,
        lead.location, lead.linkedin_bio].all truthy then score + 10
    else score
  score

/-- The role-seniority block of `rule_based_score` (lines 89-93) in
isolation. -/
def seniority_points (lead : Lead) : Int :=
  let role := pyLower (lead.role.getD "")
  if tierA.any (fun k => strContains role k) then 20
  else if tierB.any (fun k => strContains role k) then 10
  else 0

/-- The industry-fit block of `rule_based_score` (lines 95-101) in
isolation. -/
def industry_points (lead : Lead) (offer : Offer) : Int :=
  let industry := pyLower (lead.industry.getD "")
  match offer.ideal_use_cases with
  | [] => 0
  | icp0 :: _ =>
    let icp := pyLower icp0
    if strContains industry icp then 20
    else if (pySplit icp).any (fun w => strContains industry w) then 10
    else 0

/-- The completeness block of `rule_based_score` (lines 103-104) in
isolation. -/
def completeness_points (lead : Lead) : Int :=
  if [lead.name, lead.role, lead.company, lead.industry,
      lead.location, lead.linkedin_bio].all truthy then 10
  else 0

theorem rule_based_score_decomp (lead : Lead) (offer : Offer) :
    rule_based_score lead offer =
      seniority_points lead + industry_points lead offer + completeness_points lead := by
  unfold rule_based_score seniority_points industry_points completeness_points
  cases offer.ideal_use_cases <;> dsimp only <;> split <;> split <;> try split
  all_goals ring

/-- A parsed Python/JSON value, as produced by `json.loads`. -/
inductive PyVal where
  | null
  | bool (b : Bool)
  | num (n : Int)
  | str (s : String)
  | arr (xs : List PyVal)
  | dict (kvs : List (String × PyVal))

/-- Python `d.get(k)` on a dict value (and `none` on any non-dict). -/
def pyGet : PyVal → String → Option PyVal
  | .dict kvs, k => kvs.lookup k
  | _, _ => none

/-- Python `k in d` for a dict value. -/
def pyHasKey (v : PyVal) (k : String) : Bool :=
  (pyGet v k).isSome

/-- One interaction with the external completion service: it either
raises or returns a response text. -/
inductive ServiceOutcome where
  | raises
  | text (s : String)

/-- The fallback of app.py line 114, returned when no client is
configured. -/
def fallbackNotConfigured : PyVal :=
  .dict [("intent", .str "Medium"),
         ("reasoning", .str "AI not configured; using default reasoning.")]

/-- The fallback of app.py line 153, returned from the except-branch. -/
def fallbackError : PyVal :=
  .dict [("intent", .str "Medium"),
         ("reasoning", .str "Default reasoning due to AI error.")]

/-- The response-text cleanup of app.py lines 139-143: strip, then if
the text starts with a markdown fence, delete every occurrence of the
fence markers and strip again. -/
def stripFence (raw : String) : String :=
  let t := pyStrip raw
  if pyStartsWith t "```json" then
    pyStrip (pyReplace (pyReplace t "```json" "") "```" "")
  else t

/-- `ai_score_and_reason(lead, offer)` of app.py lines 111-153.  The
module-level `client` is `none` exactly when the credential is absent
(`clientConfigured = false`); the completion call is the `svc` outcome;
`json_loads` is the standard JSON parser, `none` meaning it raises.
The lead and offer only feed the prompt sent to the service, whose
behaviour `svc` already fixes, so they do not steer the control flow. -/
def ai_score_and_reason (clientConfigured : Bool) (svc : ServiceOutcome)
    (json_loads : String → Option PyVal) (lead : Lead) (offer : Offer) : PyVal :=
  if !clientConfigured then fallbackNotConfigured
  else
    match svc with
    | .raises => fallbackError
    | .text raw =>
      match json_loads (stripFence raw) with
      | none => fallbackError
      | some data =>
        match data with
        | .dict kvs =>
          if pyHasKey (.dict kvs) "intent" && pyHasKey (.dict kvs) "reasoning" then
            .dict kvs
          else fallbackError
        | _ => fallbackError

/-- The intent-to-points lookup of app.py line 174:
`{"High": 50, "Medium": 30, "Low": 10}.get(intent, 30)`.  `dict.get`
returns the default for any non-matching key; the intent labels under
discussion are JSON strings. -/
def ai_points (intent : PyVal) : Int :=
  match intent with
  | .str "High" => 50
  | .str "Medium" => 30
  | .str "Low" => 10
  | _ => 30

/-- app.py line 175: `final_score = rule_score + ai_points`. -/
def final_score (rule_score : Int) (intent : PyVal) : Int :=
  rule_score + ai_points intent

/-- One entry of `RESULTS` (app.py lines 177-184). -/
structure ScoredLead where
  name : Option String
  role : Option String
  company : Option String
  intent : PyVal
  score : Int
  reasoning : PyVal

/-- The body of the scoring loop of app.py lines 165-184 for one lead. -/
def score_one (clientConfigured : Bool) (svc : ServiceOutcome)
    (json_loads : String → Option PyVal) (offer : Offer) (lead : Lead) : ScoredLead :=
  let rule_score := rule_based_score lead offer
  let ai_data := ai_score_and_reason clientConfigured svc json_loads lead offer
  let intent := (pyGet ai_data "intent").getD (.str "Medium")
  let reasoning := (pyGet ai_data "reasoning").getD (.str "")
  ⟨lead.name, lead.role, lead.company, intent, final_score rule_score intent, reasoning⟩

/-- The FastAPI error raised on the precondition failure of `/score`. -/
structure HTTPException where
  status_code : Nat
  detail : String

/-- The module-level mutable state of app.py lines 47-49: `OFFER_DATA`
(empty dict modelled as `none`), `LEADS_DF` (`None` or a parsed row
list, possibly empty), `RESULTS`. -/
structure Session where
  OFFER_DATA : Option Offer
  LEADS_DF : Option (List Lead)
  RESULTS : List ScoredLead

/-- `score_leads()` of app.py lines 158-186: raise the precondition
error when `LEADS_DF is None or not OFFER_DATA`, else rebuild `RESULTS`
from scratch over the rows.  `svc` gives the service outcome for each
lead's completion call. -/
def score_leads (clientConfigured : Bool) (svc : Lead → ServiceOutcome)
    (json_loads : String → Option PyVal) (s : Session) :
    Session × Except HTTPException (List ScoredLead) :=
  match s.LEADS_DF, s.OFFER_DATA with
  | some df, some offer =>
    let results := df.map (fun lead =>
      score_one clientConfigured (svc lead) json_loads offer lead)
    (⟨s.OFFER_DATA, s.LEADS_DF, results⟩, .ok results)
  | _, _ => (s, .error ⟨400, "Please upload both offer and leads first."⟩)

/-- A parsed value is a Python mapping. -/
def pyIsDict : PyVal → Bool
  | .dict _ => true
  | _ => false

theorem containsAux_nil (l : List Char) : containsAux [] l = true := by
  cases l <;> simp [containsAux, List.isPrefixOf, List.isEmpty]

theorem seniority_points_cases (lead : Lead) :
    seniority_points lead = 0 ∨ seniority_points lead = 10 ∨ seniority_points lead = 20 := by
  unfold seniority_points
  dsimp only
  split
  · exact Or.inr (Or.inr rfl)
  split
  · exact Or.inr (Or.inl rfl)
  · exact Or.inl rfl

theorem industry_points_cases (lead : Lead) (offer : Offer) :
    industry_points lead offer = 0 ∨ industry_points lead offer = 10 ∨
      industry_points lead offer = 20 := by
  unfold industry_points
  dsimp only
  split
  · exact Or.inl rfl
  split
  · exact Or.inr (Or.inr rfl)
  split
  · exact Or.inr (Or.inl rfl)
  · exact Or.inl rfl

theorem completeness_points_cases (lead : Lead) :
    completeness_points lead = 0 ∨ completeness_points lead = 10 := by
  unfold completeness_points
  split
  · exact Or.inr rfl
  · exact Or.inl rfl

theorem industry_points_first_only (lead : Lead) (o1 o2 : Offer)
    (h : o1.ideal_use_cases.head? = o2.ideal_use_cases.head?) :
    industry_points lead o1 = industry_points lead o2 := by
  unfold industry_points
  cases l1 : o1.ideal_use_cases with
  | nil =>
    cases l2 : o2.ideal_use_cases with
    | nil => rfl
    | cons b bs => rw [l1, l2] at h; simp at h
  | cons a as =>
    cases l2 : o2.ideal_use_cases with
    | nil => rw [l1, l2] at h; simp at h
    | cons b bs =>
      rw [l1, l2] at h
      simp only [List.head?] at h
      cases h
      rfl

/-- C3: the rule-based industry-fit bonus depends only on entry 0 of the
offer's `ideal_use_cases`: two offers agreeing on the first entry (both
lists non-empty would suffice; agreement of `head?` covers it) yield the
same rule-based score for every lead, whatever their later entries. -/
theorem C3_first_use_case_determines (lead : Lead) (o1 o2 : Offer)
    (h : o1.ideal_use_cases.head? = o2.ideal_use_cases.head?) :
    rule_based_score lead o1 = rule_based_score lead o2 := by
  rw [rule_based_score_decomp, rule_based_score_decomp,
    industry_points_first_only lead o1 o2 h]

theorem C3_witness :
    rule_based_score ⟨some "A", some "CTO", some "Acme", some "saas", some "NY", some "b"⟩
        ⟨"X", ["a"], ["saas tools", "alpha"]⟩ =
      rule_based_score ⟨some "A", some "CTO", some "Acme", some "saas", some "NY", some "b"⟩
        ⟨"X", ["a"], ["saas tools", "beta"]⟩ :=
  C3_first_use_case_determines _ _ _ rfl

/-- C5: a Tier-A keyword in the role (case-insensitive substring) makes
the seniority contribution exactly 20 regardless of other fields; a
Tier-B keyword without any Tier-A keyword makes it exactly 10; the
`elif` means the tiers never both contribute. -/
theorem C5_seniority_tiers (lead : Lead) (offer : Offer) :
    (tierA.any (fun k => strContains (pyLower (lead.role.getD "")) k) = true →
      rule_based_score lead offer =
        20 + industry_points lead offer + completeness_points lead) ∧
    (tierA.any (fun k => strContains (pyLower (lead.role.getD "")) k) = false →
      tierB.any (fun k => strContains (pyLower (lead.role.getD "")) k) = true →
      rule_based_score lead offer =
        10 + industry_points lead offer + completeness_points lead) := by
  constructor
  · intro hA
    rw [rule_based_score_decomp]
    have h20 : seniority_points lead = 20 := by
      unfold seniority_points
      dsimp only
      rw [if_pos hA]
    rw [h20]
  · intro hA hB
    rw [rule_based_score_decomp]
    have h10 : seniority_points lead = 10 := by
      unfold seniority_points
      dsimp only
      rw [if_neg (by simp [hA]), if_pos hB]
    rw [h10]

theorem C5_witness :
    rule_based_score ⟨none, some "Director of Growth", none, none, none, none⟩
        ⟨"X", [], []⟩ =
      20 + industry_points ⟨none, some "Director of Growth", none, none, none, none⟩ ⟨"X", [], []⟩ +
        completeness_points ⟨none, some "Director of Growth", none, none, none, none⟩ ∧
    rule_based_score ⟨none, some "Sales Manager", none, none, none, none⟩
        ⟨"X", [], []⟩ =
      10 + industry_points ⟨none, some "Sales Manager", none, none, none, none⟩ ⟨"X", [], []⟩ +
        completeness_points ⟨none, some "Sales Manager", none, none, none, none⟩ :=
  ⟨(C5_seniority_tiers _ _).1 (by decide),
   (C5_seniority_tiers _ _).2 (by decide) (by decide)⟩

/-- C6: the completeness bonus is all-or-nothing over the six required
fields: all present and non-empty gives +10, anything else gives +0. -/
theorem C6_completeness_all_or_nothing (lead : Lead) (offer : Offer) :
    ([lead.name, lead.role, lead.company, lead.industry,
        lead.location, lead.linkedin_bio].all truthy = true →
      rule_based_score lead offer =
        seniority_points lead + industry_points lead offer + 10) ∧
    ([lead.name, lead.role, lead.company, lead.industry,
        lead.location, lead.linkedin_bio].all truthy = false →
      rule_based_score lead offer =
        seniority_points lead + industry_points lead offer) := by
  constructor
  · intro hall
    rw [rule_based_score_decomp]
    have h10 : completeness_points lead = 10 := by
      unfold completeness_points
      rw [if_pos hall]
    rw [h10]
  · intro hmiss
    rw [rule_based_score_decomp]
    have h0 : completeness_points lead = 0 := by
      unfold completeness_points
      rw [if_neg (by simp [hmiss])]
    rw [h0]
    ring

theorem C6_witness :
    rule_based_score ⟨some "A", some "Analyst", some "Acme", some "retail", some "NY", some "b"⟩
        ⟨"X", [], []⟩ =
      seniority_points ⟨some "A", some "Analyst", some "Acme", some "retail", some "NY", some "b"⟩ +
        industry_points ⟨some "A", some "Analyst", some "Acme", some "retail", some "NY", some "b"⟩
          ⟨"X", [], []⟩ + 10 ∧
    rule_based_score ⟨some "A", some "Analyst", some "Acme", some "retail", some "NY", none⟩
        ⟨"X", [], []⟩ =
      seniority_points ⟨some "A", some "Analyst", some "Acme", some "retail", some "NY", none⟩ +
        industry_points ⟨some "A", some "Analyst", some "Acme", some "retail", some "NY", none⟩
          ⟨"X", [], []⟩ :=
  ⟨(C6_completeness_all_or_nothing _ _).1 (by decide),
   (C6_completeness_all_or_nothing _ _).2 (by decide)⟩

/-- C7: the rule-based score always lies in [0, 50]; the embedded
function is total and pure, with missing lead fields read as empty. -/
theorem C7_range (lead : Lead) (offer : Offer) :
    0 ≤ rule_based_score lead offer ∧ rule_based_score lead offer ≤ 50 := by
  rw [rule_based_score_decomp]
  rcases seniority_points_cases lead with h | h | h <;>
    rcases industry_points_cases lead offer with h2 | h2 | h2 <;>
      rcases completeness_points_cases lead with h3 | h3 <;>
        rw [h, h2, h3] <;> norm_num

/-- C10: if the offer's first ideal-use-case entry is the empty string,
the +20 exact industry-match bonus fires for every lead, because the
empty needle is a substring of every industry value (including the empty
default for a missing field). -/
theorem C10_empty_first_use_case (lead : Lead) (offer : Offer)
    (h : offer.ideal_use_cases.head? = some "") :
    rule_based_score lead offer =
      seniority_points lead + 20 + completeness_points lead := by
  rw [rule_based_score_decomp]
  have h20 : industry_points lead offer = 20 := by
    unfold industry_points
    cases hl : offer.ideal_use_cases with
    | nil => rw [hl] at h; simp at h
    | cons a as =>
      rw [hl] at h
      simp only [List.head?, Option.some.injEq] at h
      subst h
      dsimp only
      rw [if_pos]
      exact containsAux_nil _
  rw [h20]

theorem C10_witness :
    rule_based_score ⟨none, none, none, some "finance", none, none⟩ ⟨"X", [], ["", "zz"]⟩ =
      seniority_points ⟨none, none, none, some "finance", none, none⟩ + 20 +
        completeness_points ⟨none, none, none, some "finance", none, none⟩ :=
  C10_empty_first_use_case _ _ rfl

/-- C2 (amended): for every configuration, service behaviour and JSON
parser behaviour, the classifier is total (never raises) and returns a
mapping that contains both the key "intent" and the key "reasoning".
The original claim that the intent is always one of High/Medium/Low (and
the reasoning a string) fails: a successfully parsed response is
returned verbatim, so its values are whatever the JSON held. -/
theorem C2_returns_both_keys (clientConfigured : Bool) (svc : ServiceOutcome)
    (json_loads : String → Option PyVal) (lead : Lead) (offer : Offer) :
    pyIsDict (ai_score_and_reason clientConfigured svc json_loads lead offer) = true ∧
    pyHasKey (ai_score_and_reason clientConfigured svc json_loads lead offer) "intent" = true ∧
    pyHasKey (ai_score_and_reason clientConfigured svc json_loads lead offer) "reasoning" = true := by
  unfold ai_score_and_reason
  cases clientConfigured with
  | false => exact ⟨rfl, rfl, rfl⟩
  | true =>
    cases svc with
    | raises => exact ⟨rfl, rfl, rfl⟩
    | text raw =>
      simp only [Bool.not_true, if_neg]
      cases hj : json_loads (stripFence raw) with
      | none => exact ⟨rfl, rfl, rfl⟩
      | some data =>
        cases data with
        | dict kvs =>
          dsimp only
          by_cases hk :
              (pyHasKey (.dict kvs) "intent" && pyHasKey (.dict kvs) "reasoning") = true
          · rw [if_pos hk]
            have h1 := (Bool.and_eq_true _ _).mp hk
            exact ⟨rfl, h1.1, h1.2⟩
          · rw [if_neg hk]
            exact ⟨rfl, rfl, rfl⟩
        | null => exact ⟨rfl, rfl, rfl⟩
        | bool b => exact ⟨rfl, rfl, rfl⟩
        | num n => exact ⟨rfl, rfl, rfl⟩
        | str s => exact ⟨rfl, rfl, rfl⟩
        | arr xs => exact ⟨rfl, rfl, rfl⟩

/-- C2 counterexample: with a configured client and a service response
whose JSON body is the mapping with intent "Banana" (the parser argument
reproduces `json.loads` on exactly this text), the classifier returns
that mapping verbatim, so the returned intent is not High, Medium or
Low. -/
theorem C2_counterexample :
    pyGet (ai_score_and_reason true
        (.text "\x7b\"intent\": \"Banana\", \"reasoning\": \"ok\"\x7d")
        (fun t =>
          if t = "\x7b\"intent\": \"Banana\", \"reasoning\": \"ok\"\x7d" then
            some (.dict [("intent", .str "Banana"), ("reasoning", .str "ok")])
          else none)
        ⟨some "A", some "VP", some "Acme", some "saas", some "NY", some "b"⟩
        ⟨"X", ["a"], ["saas"]⟩) "intent" = some (.str "Banana") ∧
    ("Banana" ≠ "High" ∧ "Banana" ≠ "Medium" ∧ "Banana" ≠ "Low") :=
  ⟨rfl, by decide, by decide, by decide⟩

/-- C4: the combiner's lookup maps High to 50, Medium to 30, Low to 10
and any other string label to 30, and the final score is the unclamped
sum of the rule score and those points; the three concrete spec examples
follow. -/
theorem C4_combiner :
    ai_points (.str "High") = 50 ∧ ai_points (.str "Medium") = 30 ∧
    ai_points (.str "Low") = 10 ∧
    (∀ s : String, s ≠ "High" → s ≠ "Medium" → s ≠ "Low" →
      ai_points (.str s) = 30) ∧
    (∀ (r : Int) (i : PyVal), final_score r i = r + ai_points i) ∧
    final_score 20 (.str "High") = 70 ∧ final_score 0 (.str "Low") = 10 ∧
    final_score 10 (.str "Unknown") = 40 := by
  refine ⟨rfl, rfl, rfl, ?_, fun r i => rfl, rfl, rfl, rfl⟩
  intro s h1 h2 h3
  unfold ai_points
  split <;> simp_all

theorem C4_witness : ai_points (.str "Banana") = 30 :=
  C4_combiner.2.2.2.1 "Banana" (by decide) (by decide) (by decide)

/-- C8: with no client configured, the classifier returns the fixed
not-configured fallback pair whatever the service or parser would have
done (the result does not depend on either, i.e. no call is consulted)
and whatever the lead and offer are. -/
theorem C8_no_client_fallback (svc : ServiceOutcome)
    (json_loads : String → Option PyVal) (lead : Lead) (offer : Offer) :
    ai_score_and_reason false svc json_loads lead offer =
      .dict [("intent", .str "Medium"),
             ("reasoning", .str "AI not configured; using default reasoning.")] := rfl

/-- C9: every failure mode of the AI call — the service raises, the
cleaned response text fails to parse, the parsed value is not a mapping,
or a required key is absent — yields exactly the fixed error-fallback
pair, and the classifier is total. -/
theorem C9_failure_fallback (json_loads : String → Option PyVal)
    (lead : Lead) (offer : Offer) :
    (ai_score_and_reason true .raises json_loads lead offer =
      .dict [("intent", .str "Medium"),
             ("reasoning", .str "Default reasoning due to AI error.")]) ∧
    (∀ raw, json_loads (stripFence raw) = none →
      ai_score_and_reason true (.text raw) json_loads lead offer =
        .dict [("intent", .str "Medium"),
               ("reasoning", .str "Default reasoning due to AI error.")]) ∧
    (∀ raw data, json_loads (stripFence raw) = some data → pyIsDict data = false →
      ai_score_and_reason true (.text raw) json_loads lead offer =
        .dict [("intent", .str "Medium"),
               ("reasoning", .str "Default reasoning due to AI error.")]) ∧
    (∀ raw data, json_loads (stripFence raw) = some data →
      (pyHasKey data "intent" = false ∨ pyHasKey data "reasoning" = false) →
      ai_score_and_reason true (.text raw) json_loads lead offer =
        .dict [("intent", .str "Medium"),
               ("reasoning", .str "Default reasoning due to AI error.")]) := by
  refine ⟨rfl, ?_, ?_, ?_⟩
  · intro raw hj
    unfold ai_score_and_reason
    simp only [Bool.not_true, if_neg, hj]
    rfl
  · intro raw data hj hd
    unfold ai_score_and_reason
    simp only [Bool.not_true, if_neg, hj]
    cases data with
    | dict kvs => simp [pyIsDict] at hd
    | null => rfl
    | bool b => rfl
    | num n => rfl
    | str s => rfl
    | arr xs => rfl
  · intro raw data hj hk
    unfold ai_score_and_reason
    simp only [Bool.not_true, if_neg, hj]
    cases data with
    | dict kvs =>
      dsimp only
      have hfalse :
          (pyHasKey (PyVal.dict kvs) "intent" && pyHasKey (PyVal.dict kvs) "reasoning") = false := by
        rcases hk with hk | hk <;> simp [hk]
      rw [hfalse]
      rfl
    | null => rfl
    | bool b => rfl
    | num n => rfl
    | str s => rfl
    | arr xs => rfl

theorem C9_witness :
    ai_score_and_reason true (.text "not json") (fun _ => none)
        ⟨none, none, none, none, none, none⟩ ⟨"X", [], []⟩ =
      .dict [("intent", .str "Medium"),
             ("reasoning", .str "Default reasoning due to AI error.")] ∧
    ai_score_and_reason true (.text "\x7b\"intent\": \"High\"\x7d")
        (fun t =>
          if t = "\x7b\"intent\": \"High\"\x7d" then
            some (.dict [("intent", .str "High")])
          else none)
        ⟨none, none, none, none, none, none⟩ ⟨"X", [], []⟩ =
      .dict [("intent", .str "Medium"),
             ("reasoning", .str "Default reasoning due to AI error.")] :=
  ⟨(C9_failure_fallback _ _ _).2.1 "not json" rfl,
   (C9_failure_fallback _ _ _).2.2.2 "\x7b\"intent\": \"High\"\x7d"
     (.dict [("intent", .str "High")]) rfl (Or.inr rfl)⟩

/-- C1 counterexample: with an offer present, a present-but-empty lead
batch, and a previously non-empty results slot, `/score` does not fail
with the precondition error — it succeeds with an empty result list and
overwrites the results slot.  This refutes the "or empty" part of the
claim: the source only checks `LEADS_DF is None or not OFFER_DATA`. -/
theorem C1_counterexample :
    (⟨some ⟨"X", ["a"], ["saas"]⟩, some ([] : List Lead),
        [⟨none, none, none, PyVal.null, 0, PyVal.null⟩]⟩ : Session).RESULTS ≠ [] ∧
    (score_leads false (fun _ => .raises) (fun _ => none)
        ⟨some ⟨"X", ["a"], ["saas"]⟩, some [],
          [⟨none, none, none, PyVal.null, 0, PyVal.null⟩]⟩).2 = .ok [] ∧
    (score_leads false (fun _ => .raises) (fun _ => none)
        ⟨some ⟨"X", ["a"], ["saas"]⟩, some [],
          [⟨none, none, none, PyVal.null, 0, PyVal.null⟩]⟩).1.RESULTS = [] :=
  ⟨List.cons_ne_nil _ _, rfl, rfl⟩

/-- C1 (amended): `/score` fails with the 400 precondition error, and
leaves the whole session (results included) unchanged, exactly when the
offer slot is empty or the lead batch is absent; a present-but-empty
batch passes the precondition and replaces the results slot with an
empty list. -/
theorem C1_precondition_error (clientConfigured : Bool)
    (svc : Lead → ServiceOutcome) (json_loads : String → Option PyVal)
    (s : Session) (h : s.OFFER_DATA = none ∨ s.LEADS_DF = none) :
    score_leads clientConfigured svc json_loads s =
      (s, .error ⟨400, "Please upload both offer and leads first."⟩) := by
  unfold score_leads
  rcases h with h | h
  · rw [h]
    cases s.LEADS_DF <;> rfl
  · rw [h]

theorem C1_witness :
    score_leads false (fun _ => .raises) (fun _ => none)
        ⟨none, some [⟨none, none, none, none, none, none⟩], []⟩ =
      (⟨none, some [⟨none, none, none, none, none, none⟩], []⟩,
        .error ⟨400, "Please upload both offer and leads first."⟩) :=
  C1_precondition_error false _ _ _ (Or.inl rfl)
